import Mathlib

/-!
Shallow embedding of the `rust-webm` muxing wrapper (`src/lib/mux/segment.rs`,
`src/lib/mux/writer.rs`, with the legacy inline module in `src/lib/lib.rs`
agreeing on the callback bodies).

The native `libwebm` engine is opaque: every engine call is modelled by
parameters giving the engine's reply (a status code, an assigned track number,
a possibly-null pointer).  Opaque pointers are modelled as `Nat`; a nullable
pointer is `Option Nat`.  Calls the wrapper makes into the engine that matter
to resource lifetime (`initialize_segment`, `finalize_segment`,
`delete_segment`) are recorded as an event trace.

Machine integers: the `bytes_written` counter is a `u64`; its update is
modelled modulo `2 ^ 64`.  Rust `io::Result` values are modelled as
`Except Unit Nat`; a Rust panic/abort (an `unwrap` or a failed `assert_eq!`)
is a dedicated constructor of the result type, distinct from any recoverable
error value.
-/

namespace RustWebm

/-- Engine status code for success (`ffi::mux::RESULT_OK`).  Only equality
with it is ever tested by the wrapper, so its concrete value is irrelevant;
we fix it to `0`. -/
def RESULT_OK : Nat := 0

/-- `mux::Error` (from the crate's mux module): the single, intentionally
coarse error value `Error::Unknown`. -/
inductive Error where
  | Unknown
deriving DecidableEq, Repr

/-- Modelled from the spec: the `TrackNum` domain type is defined in the
crate's `mux` module file, which is not among the provided sources (only its
use sites in `segment.rs` are).  Per the spec it is an integer domain value
with valid range [1,126], excluding zero, immutable once constructed. -/
def TrackNum : Type := { n : Nat // 1 ≤ n ∧ n ≤ 126 }

instance : DecidableEq TrackNum :=
  inferInstanceAs (DecidableEq { n : Nat // 1 ≤ n ∧ n ≤ 126 })

/-- The integer value of a `TrackNum`. -/
def TrackNum.val (t : TrackNum) : Nat := Subtype.val t

/-- Modelled from the spec: construction of a `TrackNum` from a
caller-supplied integer (`TryFrom`), validated to the range [1,126]. -/
def TrackNum.try_from (n : Nat) : Option TrackNum :=
  if h : 1 ≤ n ∧ n ≤ 126 then some ⟨n, h⟩ else none

/-- Modelled from the spec: `TrackNum::try_from_raw`, parsing a raw integer
returned by the engine with the same [1,126] validation (the spec: "also
re-validated"). -/
def TrackNum.try_from_raw (n : Nat) : Option TrackNum :=
  if h : 1 ≤ n ∧ n ≤ 126 then some ⟨n, h⟩ else none

/-- `TrackNum::into_raw`: the raw integer handed to the engine. -/
def TrackNum.into_raw (t : TrackNum) : Nat := t.val

theorem TrackNum.try_from_val {n : Nat} {t : TrackNum} :
    TrackNum.try_from n = some t → t.val = n := by
  unfold TrackNum.try_from
  split
  · intro h
    cases h
    rfl
  · intro h
    cases h

theorem TrackNum.try_from_raw_eq_try_from (n : Nat) :
    TrackNum.try_from_raw n = TrackNum.try_from n := by
  unfold TrackNum.try_from_raw TrackNum.try_from
  rfl

theorem TrackNum.try_from_raw_val {n : Nat} {t : TrackNum} :
    TrackNum.try_from_raw n = some t → t.val = n := by
  rw [TrackNum.try_from_raw_eq_try_from]
  exact TrackNum.try_from_val

theorem TrackNum.try_from_raw_self (t : TrackNum) :
    TrackNum.try_from_raw t.val = some t := by
  rcases t with ⟨n, hn⟩
  show TrackNum.try_from_raw n = some ⟨n, hn⟩
  unfold TrackNum.try_from_raw
  rw [dif_pos hn]

/-- `mux::VideoTrackNum`: a `TrackNum` tagged as a video track; produced only
by a successful `add_video_track`. -/
structure VideoTrackNum where
  track : TrackNum
deriving DecidableEq

/-- `mux::AudioTrackNum`: a `TrackNum` tagged as an audio track; produced only
by a successful `add_audio_track`. -/
structure AudioTrackNum where
  track : TrackNum
deriving DecidableEq

/-- `VideoTrackNum::as_track_number`. -/
def VideoTrackNum.as_track_number (t : VideoTrackNum) : TrackNum := t.track

/-- `AudioTrackNum::as_track_number`. -/
def AudioTrackNum.as_track_number (t : AudioTrackNum) : TrackNum := t.track

/-- `mux::VideoCodecId` (segment.rs passes `codec.get_id()` to the engine). -/
inductive VideoCodecId where
  | VP8
  | VP9
  | AV1
deriving DecidableEq, Repr

/-- `mux::AudioCodecId`. -/
inductive AudioCodecId where
  | Opus
  | Vorbis
deriving DecidableEq, Repr

/-- Outcome of one of the track-adding wrapper methods: a normal return
(`Ok` with the typed track number), the recoverable `Err(Error::Unknown)`
return, or a Rust panic/abort (`unwrap` on a failed parse, or a failed
`assert_eq!`). -/
inductive AddTrackOutcome (α : Type) where
  | ok (t : α)
  | err (e : Error)
  | panicked
deriving DecidableEq

/-- The raw number passed to the engine for a requested track number:
`track_num.map(|n| n.0.into()).unwrap_or(0)` in `segment.rs`. -/
def desired_track_num (track_num : Option TrackNum) : Nat :=
  (track_num.map TrackNum.val).getD 0

/-- `Segment::add_video_track` (`segment.rs` lines 98-133).  The engine call
`segment_add_video_track` is abstracted by its reply: `engine_status` (the
returned status) and `track_num_out` (the assigned raw track number written
through the out-pointer).  Width, height and codec are forwarded to the
engine and do not influence the wrapper's own control flow. -/
def add_video_track (width height : Nat) (track_num : Option TrackNum)
    (codec : VideoCodecId) (engine_status : Nat) (track_num_out : Nat) :
    AddTrackOutcome VideoTrackNum :=
  let _ := (width, height, codec, desired_track_num track_num)
  if engine_status = RESULT_OK then
    match TrackNum.try_from_raw track_num_out with
    | none => AddTrackOutcome.panicked
    | some result_track_num =>
      match track_num with
      | some desired =>
        if desired = result_track_num then
          AddTrackOutcome.ok ⟨result_track_num⟩
        else
          AddTrackOutcome.panicked
      | none => AddTrackOutcome.ok ⟨result_track_num⟩
  else
    AddTrackOutcome.err Error.Unknown

/-- `Segment::add_audio_track` (`segment.rs` lines 143-177), abstracted the
same way as `add_video_track`. -/
def add_audio_track (sample_rate channels : Nat) (track_num : Option TrackNum)
    (codec : AudioCodecId) (engine_status : Nat) (track_num_out : Nat) :
    AddTrackOutcome AudioTrackNum :=
  let _ := (sample_rate, channels, codec, desired_track_num track_num)
  if engine_status = RESULT_OK then
    match TrackNum.try_from_raw track_num_out with
    | none => AddTrackOutcome.panicked
    | some result_track_num =>
      match track_num with
      | some desired =>
        if desired = result_track_num then
          AddTrackOutcome.ok ⟨result_track_num⟩
        else
          AddTrackOutcome.panicked
      | none => AddTrackOutcome.ok ⟨result_track_num⟩
  else
    AddTrackOutcome.err Error.Unknown

/-! ## The Output Bridge (`writer.rs`)

The write destination `T : Write (+ Seek)` is abstracted by a state type `D`
together with its I/O operations:
  * `wr d bs`  models `dest.write(bs)`  : `io::Result<usize>` plus the updated
    destination state (a `&mut self` call may mutate even on error);
  * `spos d`   models `dest.stream_position()` : `io::Result<u64>`, modelled
    as a pure position query;
  * `sk d pos` models `dest.seek(SeekFrom::Start(pos))` : `io::Result<u64>`
    plus the updated destination state.
-/

/-- `u64` modulus for the `bytes_written` counter. -/
def U64_LIMIT : Nat := 2 ^ 64

/-- `MuxWriterData<T>` (`writer.rs` lines 58-63): the pinned state block the
engine's callbacks dereference — the destination plus the running byte
counter used when the destination cannot report its own position. -/
structure MuxWriterData (D : Type) where
  dest : D
  bytes_written : Nat
deriving DecidableEq, Repr

/-- `write_fn` (`writer.rs` lines 99-121; identical in `lib.rs` lines 70-92).
`buf = none` models a null buffer pointer; `buf = some bs` models a non-null
pointer whose `len`-element slice reads back as `bs` (so in any real
invocation `bs.length = len`).  Returns the callback's `bool` result and the
updated state block. -/
def write_fn {D : Type} (wr : D → List Nat → Except Unit Nat × D)
    (buf : Option (List Nat)) (len : Nat) (data : MuxWriterData D) :
    Bool × MuxWriterData D :=
  match buf with
  | none => (false, data)
  | some bs =>
    let r := wr data.dest bs
    match r.1 with
    | Except.ok num_bytes =>
      -- Partial writes are considered failure, but the counter is updated
      -- with the accepted byte count before the length comparison.
      (num_bytes == len,
       { dest := r.2,
         bytes_written := (data.bytes_written + num_bytes) % U64_LIMIT })
    | Except.error _ => (false, { dest := r.2, bytes_written := data.bytes_written })

/-- Result of the `get_position` callback: a reported `u64`, or a Rust
panic/abort (the Seek-variant callback calls `.unwrap()` on the
`stream_position()` result, and the C ABI offers it no error channel). -/
inductive PosOutcome where
  | val (n : Nat)
  | panicked
deriving DecidableEq, Repr

/-- `get_pos_fn` of `Writer::new` (`writer.rs` lines 154-160): delegates to
`dest.stream_position().unwrap()`, aborting if the destination reports an
error. -/
def get_pos_fn_seek {D : Type} (spos : D → Option Nat)
    (data : MuxWriterData D) : PosOutcome :=
  match spos data.dest with
  | some p => PosOutcome.val p
  | none => PosOutcome.panicked

/-- `set_pos_fn` of `Writer::new` (`writer.rs` lines 161-167):
`dest.seek(SeekFrom::Start(pos)).is_ok()`. -/
def set_pos_fn {D : Type} (sk : D → Nat → Except Unit Nat × D)
    (pos : Nat) (data : MuxWriterData D) : Bool × MuxWriterData D :=
  let r := sk data.dest pos
  (match r.1 with
   | Except.ok _ => true
   | Except.error _ => false,
   { data with dest := r.2 })

/-- `Writer<T>` (`writer.rs` lines 44-50), reduced to its observable content:
the pinned state block and the three callback slots registered with
`ffi::mux::new_writer` (`set_pos_cb = none` models passing a null
`set_position` function pointer). -/
structure Writer (D : Type) where
  writer_data : MuxWriterData D
  write_cb : Option (List Nat) → Nat → MuxWriterData D → Bool × MuxWriterData D
  get_pos_cb : MuxWriterData D → PosOutcome
  set_pos_cb : Option (Nat → MuxWriterData D → Bool × MuxWriterData D)

/-- `Writer::make_writer` (`writer.rs` lines 94-142): builds the state block
with `bytes_written = 0` and registers `write_fn` plus the supplied
position callbacks. -/
def make_writer {D : Type} (wr : D → List Nat → Except Unit Nat × D)
    (dest : D) (get_pos_cb : MuxWriterData D → PosOutcome)
    (set_pos_cb : Option (Nat → MuxWriterData D → Bool × MuxWriterData D)) :
    Writer D :=
  { writer_data := { dest := dest, bytes_written := 0 },
    write_cb := write_fn wr,
    get_pos_cb := get_pos_cb,
    set_pos_cb := set_pos_cb }

/-- `Writer::new_non_seek` (`writer.rs` lines 71-80): the `get_position`
callback reads the internal `bytes_written` counter, and no `set_position`
callback is registered. -/
def Writer.new_non_seek {D : Type} (wr : D → List Nat → Except Unit Nat × D)
    (dest : D) : Writer D :=
  make_writer wr dest (fun data => PosOutcome.val data.bytes_written) none

/-- `Writer::new` (`writer.rs` lines 151-170): the `get_position` callback
delegates to the destination's `stream_position`, and a `set_position`
callback delegating to the destination's `seek` is registered. -/
def Writer.new {D : Type} (wr : D → List Nat → Except Unit Nat × D)
    (spos : D → Option Nat) (sk : D → Nat → Except Unit Nat × D)
    (dest : D) : Writer D :=
  make_writer wr dest (get_pos_fn_seek spos) (some (set_pos_fn sk))

/-! ## The Segment lifecycle (`segment.rs`)

Engine calls that matter to resource lifetime are recorded as events, in the
order the wrapper performs them. -/

/-- Engine calls made by the segment wrapper that are recorded in traces. -/
inductive SegEvent where
  | initialize_segment (p : Nat)
  | finalize_segment (p : Nat) (duration : Nat)
  | delete_segment (p : Nat)
deriving DecidableEq, Repr

/-- `Segment<W>` (`segment.rs` lines 44-47): the owned opaque context pointer
(wrapped in `OwnedSegmentPtr`) and the writer it holds for its lifetime. -/
structure Segment (W : Type) where
  ffi : Nat
  writer : W

/-- `Segment::new` (`segment.rs` lines 58-77).  The engine's replies are the
parameters: `alloc` is the pointer returned by `new_segment` (`none` = null)
and `init_status` the status returned by `initialize_segment`.  Returns the
Rust `Result` and the trace of engine calls: on a null allocation it fails
before calling `initialize_segment`; on an initialization failure it calls
`delete_segment` on the freshly allocated context before returning the
error. -/
def Segment.new {W : Type} (dest : W) (alloc : Option Nat)
    (init_status : Nat) : Except Error (Segment W) × List SegEvent :=
  match alloc with
  | none => (Except.error Error.Unknown, [])
  | some p =>
    if init_status = RESULT_OK then
      (Except.ok { ffi := p, writer := dest }, [SegEvent.initialize_segment p])
    else
      (Except.error Error.Unknown,
       [SegEvent.initialize_segment p, SegEvent.delete_segment p])

/-- `Segment::finalize` (`segment.rs` lines 275-284).  `fin_status` is the
status returned by `ffi::mux::finalize_segment`; `duration.getD 0` mirrors
`duration.unwrap_or(0)`.  The destructured `OwnedSegmentPtr` is dropped when
the function returns, so `delete_segment` is called exactly once, after
`finalize_segment`, on both the success and the failure path — and the
writer is returned to the caller on both paths (`Result<W, W>`). -/
def Segment.finalize {W : Type} (seg : Segment W) (fin_status : Nat)
    (duration : Option Nat) : Except W W × List SegEvent :=
  ((if fin_status = RESULT_OK then Except.ok seg.writer
    else Except.error seg.writer),
   [SegEvent.finalize_segment seg.ffi (duration.getD 0),
    SegEvent.delete_segment seg.ffi])

/-- Dropping a `Segment` without finalizing it (`OwnedSegmentPtr::drop`,
`segment.rs` lines 26-33): the only engine call is `delete_segment`. -/
def Segment.drop {W : Type} (seg : Segment W) : List SegEvent :=
  [SegEvent.delete_segment seg.ffi]

/-- The complete engine-call trace of one segment lifetime: creation,
followed (when creation succeeded) by either `finalize` or a plain drop. -/
def segmentLifecycle {W : Type} (dest : W) (alloc : Option Nat)
    (init_status fin_status : Nat) (duration : Option Nat)
    (doFinalize : Bool) : List SegEvent :=
  match Segment.new dest alloc init_status with
  | (Except.ok seg, evs) =>
    evs ++ (if doFinalize then (Segment.finalize seg fin_status duration).2
            else Segment.drop seg)
  | (Except.error _, evs) => evs

/-- Whether an event is `delete_segment p`. -/
def SegEvent.isDeleteOf (p : Nat) : SegEvent → Bool
  | SegEvent.delete_segment q => p == q
  | _ => false

/-- Whether an event is a `finalize_segment` call (the engine call that
performs the terminal seek-and-rewrite writes). -/
def SegEvent.isFinalizeCall : SegEvent → Bool
  | SegEvent.finalize_segment _ _ => true
  | _ => false

/-! ## Claims -/

/-- C1: whenever `add_video_track` or `add_audio_track` is called with an
explicit requested track number and the engine reports success, a normal
return carries exactly the requested number; if the engine assigned any
other number the call aborts with a fatal assertion (`panicked`), never
returning the recoverable `err` value. -/
theorem claim_C1_explicit_track_number_or_abort (out : Nat) (d : TrackNum)
    (width height sample_rate channels : Nat)
    (vc : VideoCodecId) (ac : AudioCodecId) :
    add_video_track width height (some d) vc RESULT_OK out =
      (if out = d.val then AddTrackOutcome.ok ⟨d⟩ else AddTrackOutcome.panicked) ∧
    add_audio_track sample_rate channels (some d) ac RESULT_OK out =
      (if out = d.val then AddTrackOutcome.ok ⟨d⟩ else AddTrackOutcome.panicked) := by
  constructor
  · unfold add_video_track
    rw [if_pos rfl]
    by_cases h : out = d.val
    · subst h
      rw [TrackNum.try_from_raw_self d, if_pos rfl]
      simp
    · rw [if_neg h]
      cases hc : TrackNum.try_from_raw out with
      | none => simp
      | some t =>
        have hval : t.val = out := TrackNum.try_from_raw_val hc
        have hne : ¬ d = t := fun he => h (by rw [he, hval])
        simp [hne]
  · unfold add_audio_track
    rw [if_pos rfl]
    by_cases h : out = d.val
    · subst h
      rw [TrackNum.try_from_raw_self d, if_pos rfl]
      simp
    · rw [if_neg h]
      cases hc : TrackNum.try_from_raw out with
      | none => simp
      | some t =>
        have hval : t.val = out := TrackNum.try_from_raw_val hc
        have hne : ¬ d = t := fun he => h (by rw [he, hval])
        simp [hne]

/-- C2: `TrackNum` construction succeeds and round-trips for every `n` in
`[1,126]`, fails for `n = 0` and for every `n > 126`, and parsing a raw
engine-returned integer (`try_from_raw`) applies the same validation. -/
theorem claim_C2_tracknum_validation (n : Nat) :
    (1 ≤ n → n ≤ 126 → Option.map TrackNum.val (TrackNum.try_from n) = some n) ∧
    (n = 0 → TrackNum.try_from n = none) ∧
    (126 < n → TrackNum.try_from n = none) ∧
    TrackNum.try_from_raw n = TrackNum.try_from n := by
  refine ⟨?_, ?_, ?_, TrackNum.try_from_raw_eq_try_from n⟩
  · intro h1 h2
    unfold TrackNum.try_from
    rw [dif_pos ⟨h1, h2⟩]
    rfl
  · intro h
    subst h
    unfold TrackNum.try_from
    rw [dif_neg]
    decide
  · intro h
    unfold TrackNum.try_from
    rw [dif_neg]
    omega

/-- Witness for C2 at concrete inputs 7, 0 and 127. -/
theorem claim_C2_witness :
    Option.map TrackNum.val (TrackNum.try_from 7) = some 7 ∧
    TrackNum.try_from 0 = none ∧
    TrackNum.try_from 127 = none ∧
    TrackNum.try_from_raw 7 = TrackNum.try_from 7 :=
  ⟨(claim_C2_tracknum_validation 7).1 (by decide) (by decide),
   (claim_C2_tracknum_validation 0).2.1 rfl,
   (claim_C2_tracknum_validation 127).2.2.1 (by decide),
   (claim_C2_tracknum_validation 7).2.2.2⟩

/-- C3: with a non-null buffer `bs` of length `len = bs.length`, `write_fn`
forwards the buffer to the destination's write (the resulting destination
state is exactly the one the destination's write produced); when the
destination accepts `n` bytes the callback reports success iff `n = len` and
the running counter grows by `n` (as a `u64`); when the destination errors
the callback reports failure and the counter is unchanged. -/
theorem claim_C3_write_callback {D : Type}
    (wr : D → List Nat → Except Unit Nat × D)
    (bs : List Nat) (data : MuxWriterData D) :
    (∀ n d2, wr data.dest bs = (Except.ok n, d2) →
      write_fn wr (some bs) bs.length data =
        (n == bs.length,
         { dest := d2,
           bytes_written := (data.bytes_written + n) % U64_LIMIT })) ∧
    (∀ n d2, wr data.dest bs = (Except.ok n, d2) →
      ((write_fn wr (some bs) bs.length data).1 = true ↔ n = bs.length)) ∧
    (∀ d2, wr data.dest bs = (Except.error (), d2) →
      write_fn wr (some bs) bs.length data =
        (false, { dest := d2, bytes_written := data.bytes_written })) := by
  refine ⟨?_, ?_, ?_⟩
  · intro n d2 h
    simp [write_fn, h]
  · intro n d2 h
    simp [write_fn, h]
  · intro d2 h
    simp [write_fn, h]

/-- Witness for C3: a destination that accepts everything, one that accepts
only 2 bytes (short write), and one that errors, each on a 3-byte buffer. -/
theorem claim_C3_witness :
    write_fn (fun (_ : Unit) (l : List Nat) => (Except.ok l.length, ()))
        (some [1, 2, 3]) ([1, 2, 3].length) { dest := (), bytes_written := 10 } =
      (true, { dest := (), bytes_written := 13 }) ∧
    ((write_fn (fun (_ : Unit) (_ : List Nat) => (Except.ok 2, ()))
        (some [1, 2, 3]) ([1, 2, 3].length)
        { dest := (), bytes_written := 10 }).1 = true ↔ 2 = [1, 2, 3].length) ∧
    write_fn (fun (_ : Unit) (_ : List Nat) => (Except.error (), ()))
        (some [1, 2, 3]) ([1, 2, 3].length) { dest := (), bytes_written := 10 } =
      (false, { dest := (), bytes_written := 10 }) := by
  refine ⟨?_, ?_, ?_⟩
  · have h := (claim_C3_write_callback
      (fun (_ : Unit) (l : List Nat) => (Except.ok l.length, ()))
      [1, 2, 3] { dest := (), bytes_written := 10 }).1 3 () rfl
    rw [h]
    decide
  · exact (claim_C3_write_callback
      (fun (_ : Unit) (_ : List Nat) => (Except.ok 2, ()))
      [1, 2, 3] { dest := (), bytes_written := 10 }).2.1 2 () rfl
  · exact (claim_C3_write_callback
      (fun (_ : Unit) (_ : List Nat) => (Except.error (), ()))
      [1, 2, 3] { dest := (), bytes_written := 10 }).2.2 () rfl

/-- C9: a null buffer pointer makes the write callback fail immediately, for
every requested length and every destination write operation (so the
destination is never invoked) and with the state block — destination and
running counter — unchanged. -/
theorem claim_C9_null_buffer_rejected {D : Type}
    (wr : D → List Nat → Except Unit Nat × D) (len : Nat)
    (data : MuxWriterData D) :
    write_fn wr none len data = (false, data) := rfl

/-- C7: the `get_position` callback of a non-Seek `Writer` reports the
internal running byte counter; the one of a Seek `Writer` reports exactly
the position the destination itself reports. -/
theorem claim_C7_get_position_source {D : Type}
    (wr : D → List Nat → Except Unit Nat × D) (spos : D → Option Nat)
    (sk : D → Nat → Except Unit Nat × D) (dest : D)
    (data : MuxWriterData D) (p : Nat) :
    (Writer.new_non_seek wr dest).get_pos_cb data =
      PosOutcome.val data.bytes_written ∧
    (spos data.dest = some p →
      (Writer.new wr spos sk dest).get_pos_cb data = PosOutcome.val p) := by
  constructor
  · rfl
  · intro h
    simp [Writer.new, make_writer, get_pos_fn_seek, h]

/-- Witness for C7 with a destination reporting position 42 and a non-Seek
state block whose counter is 5. -/
theorem claim_C7_witness :
    (Writer.new_non_seek (fun (d : Unit) (_ : List Nat) => (Except.ok 0, d))
        ()).get_pos_cb { dest := (), bytes_written := 5 } =
      PosOutcome.val 5 ∧
    (Writer.new (fun (d : Unit) (_ : List Nat) => (Except.ok 0, d))
        (fun _ => some 42) (fun d _ => (Except.ok 0, d)) ()).get_pos_cb
        { dest := (), bytes_written := 5 } = PosOutcome.val 42 :=
  ⟨(claim_C7_get_position_source (fun (d : Unit) (_ : List Nat) => (Except.ok 0, d))
      (fun _ => some 42) (fun d _ => (Except.ok 0, d)) ()
      { dest := (), bytes_written := 5 } 42).1,
   (claim_C7_get_position_source (fun (d : Unit) (_ : List Nat) => (Except.ok 0, d))
      (fun _ => some 42) (fun d _ => (Except.ok 0, d)) ()
      { dest := (), bytes_written := 5 } 42).2 rfl⟩

/-- C8: a non-Seek `Writer` registers no `set_position` callback; a Seek
`Writer` registers `set_pos_fn`, which reports success exactly when the
destination's seek to the given absolute offset succeeds. -/
theorem claim_C8_set_position_registration {D : Type}
    (wr : D → List Nat → Except Unit Nat × D) (spos : D → Option Nat)
    (sk : D → Nat → Except Unit Nat × D) (dest : D)
    (pos n : Nat) (data : MuxWriterData D) :
    (Writer.new_non_seek wr dest).set_pos_cb = none ∧
    (Writer.new wr spos sk dest).set_pos_cb = some (set_pos_fn sk) ∧
    ((sk data.dest pos).1 = Except.ok n → (set_pos_fn sk pos data).1 = true) ∧
    ((sk data.dest pos).1 = Except.error () →
      (set_pos_fn sk pos data).1 = false) := by
  refine ⟨rfl, rfl, ?_, ?_⟩
  · intro h
    simp [set_pos_fn, h]
  · intro h
    simp [set_pos_fn, h]

/-- Witness for C8 with a seek that succeeds (returning position 9) and a
seek that errors. -/
theorem claim_C8_witness :
    (set_pos_fn (fun (d : Unit) (_ : Nat) => (Except.ok 9, d)) 100
        { dest := (), bytes_written := 0 }).1 = true ∧
    (set_pos_fn (fun (d : Unit) (_ : Nat) => (Except.error (), d)) 100
        { dest := (), bytes_written := 0 }).1 = false ∧
    (Writer.new_non_seek (fun (d : Unit) (_ : List Nat) => (Except.ok 0, d))
        ()).set_pos_cb = none :=
  ⟨(claim_C8_set_position_registration
      (fun (d : Unit) (_ : List Nat) => (Except.ok 0, d)) (fun _ => some 0)
      (fun d _ => (Except.ok 9, d)) () 100 9
      { dest := (), bytes_written := 0 }).2.2.1 rfl,
   (claim_C8_set_position_registration
      (fun (d : Unit) (_ : List Nat) => (Except.ok 0, d)) (fun _ => some 0)
      (fun d _ => (Except.error (), d)) () 100 0
      { dest := (), bytes_written := 0 }).2.2.2 rfl,
   (claim_C8_set_position_registration
      (fun (d : Unit) (_ : List Nat) => (Except.ok 0, d)) (fun _ => some 0)
      (fun d _ => (Except.ok 9, d)) () 100 9
      { dest := (), bytes_written := 0 }).1⟩

/-- C10: on a Seek `Writer`, if the destination's position query errors while
the engine invokes `get_position`, the callback aborts (`panicked`): it has
no error channel and reports no fallback value. -/
theorem claim_C10_position_error_panics {D : Type} (spos : D → Option Nat)
    (data : MuxWriterData D) :
    spos data.dest = none → get_pos_fn_seek spos data = PosOutcome.panicked := by
  intro h
  simp [get_pos_fn_seek, h]

/-- Witness for C10 with a destination whose position query always errors. -/
theorem claim_C10_witness :
    get_pos_fn_seek (fun (_ : Unit) => (none : Option Nat))
      { dest := (), bytes_written := 3 } = PosOutcome.panicked :=
  claim_C10_position_error_panics (fun _ => none)
    { dest := (), bytes_written := 3 } rfl

/-- C4: segment creation returns the construction error when the engine's
allocation returns a null context (before any initialization attempt) or
when initialization reports non-success; in the latter case `delete_segment`
is called on the already-allocated context before the error is returned, so
the trace of the failing path is initialize-then-delete. -/
theorem claim_C4_creation_failure_releases_context {W : Type} (dest : W)
    (init_status : Nat) (p : Nat) :
    Segment.new dest none init_status = (Except.error Error.Unknown, []) ∧
    (init_status ≠ RESULT_OK →
      Segment.new dest (some p) init_status =
        (Except.error Error.Unknown,
         [SegEvent.initialize_segment p, SegEvent.delete_segment p])) := by
  constructor
  · rfl
  · intro h
    simp [Segment.new, h]

/-- Witness for C4: null allocation, and an initialization failure with
status 1 on context pointer 5. -/
theorem claim_C4_witness :
    Segment.new (42 : Nat) none 0 = (Except.error Error.Unknown, []) ∧
    Segment.new (42 : Nat) (some 5) 1 =
      (Except.error Error.Unknown,
       [SegEvent.initialize_segment 5, SegEvent.delete_segment 5]) :=
  ⟨(claim_C4_creation_failure_releases_context (42 : Nat) 0 5).1,
   (claim_C4_creation_failure_releases_context (42 : Nat) 1 5).2 (by decide)⟩

/-- C5: `finalize` returns the original writer on every path — as the
success value when the engine's finalize reports success, as the error
value when it reports failure — so the caller never loses the
destination. -/
theorem claim_C5_finalize_returns_writer {W : Type} (seg : Segment W)
    (fin_status : Nat) (duration : Option Nat) :
    ((Segment.finalize seg fin_status duration).1 = Except.ok seg.writer ∨
     (Segment.finalize seg fin_status duration).1 = Except.error seg.writer) ∧
    (fin_status = RESULT_OK →
      (Segment.finalize seg fin_status duration).1 = Except.ok seg.writer) ∧
    (fin_status ≠ RESULT_OK →
      (Segment.finalize seg fin_status duration).1 = Except.error seg.writer) := by
  by_cases h : fin_status = RESULT_OK <;> simp [Segment.finalize, h]

/-- Witness for C5: finalize of the segment `{ffi := 7, writer := 42}` on a
success status and on a failure status. -/
theorem claim_C5_witness :
    (Segment.finalize { ffi := 7, writer := (42 : Nat) } RESULT_OK none).1 =
      Except.ok 42 ∧
    (Segment.finalize { ffi := 7, writer := (42 : Nat) } 1 none).1 =
      Except.error 42 :=
  ⟨(claim_C5_finalize_returns_writer { ffi := 7, writer := (42 : Nat) }
      RESULT_OK none).2.1 rfl,
   (claim_C5_finalize_returns_writer { ffi := 7, writer := (42 : Nat) }
      1 none).2.2 (by decide)⟩

/-- C6: over the lifetime of a successfully created segment, the opaque
context `p` is deleted exactly once — on the finalize path and on the
drop-without-finalize path alike; the drop path performs no
`finalize_segment` call (so no terminal seek-and-rewrite writes), and the
finalize path performs exactly one. -/
theorem claim_C6_context_deleted_exactly_once {W : Type} (dest : W)
    (p fin_status : Nat) (duration : Option Nat) :
    List.countP (SegEvent.isDeleteOf p)
      (segmentLifecycle dest (some p) RESULT_OK fin_status duration true) = 1 ∧
    List.countP (SegEvent.isDeleteOf p)
      (segmentLifecycle dest (some p) RESULT_OK fin_status duration false) = 1 ∧
    List.countP SegEvent.isFinalizeCall
      (segmentLifecycle dest (some p) RESULT_OK fin_status duration false) = 0 ∧
    List.countP SegEvent.isFinalizeCall
      (segmentLifecycle dest (some p) RESULT_OK fin_status duration true) = 1 := by
  refine ⟨?_, ?_, ?_, ?_⟩ <;>
    simp [segmentLifecycle, Segment.new, Segment.finalize, Segment.drop,
          SegEvent.isDeleteOf, SegEvent.isFinalizeCall,
          List.countP_cons, List.countP_nil]

end RustWebm
